import Mathlib

/-!
Verification of the Griply personal-finance backend.

Shallow embedding of the Python services in Lean 4:
* Python `datetime.date` values become a `Date` structure (proleptic Gregorian
  calendar, `calendar.monthrange` becomes `daysInMonth`, `date.toordinal`
  becomes `Date.toOrd`, one-day `timedelta` addition becomes `Date.nextDay`).
* Python `Decimal`/`float` arithmetic is modelled with `ℚ`.
* Database rows become lists of structures; queries become list traversals.
-/

namespace Griply

/-! ## Calendar model (Python `datetime.date` / `calendar.monthrange`) -/

/-- Gregorian leap-year rule, as used by Python's `calendar` module. -/
def isLeapYear (y : Nat) : Bool :=
  (y % 4 = 0 && y % 100 ≠ 0) || y % 400 = 0

/-- `calendar.monthrange(y, m)[1]`: number of days in month `m` of year `y`. -/
def daysInMonth (y m : Nat) : Nat :=
  if m = 2 then (if isLeapYear y then 29 else 28)
  else if m = 4 ∨ m = 6 ∨ m = 9 ∨ m = 11 then 30
  else 31

/-- A calendar date, mirroring Python's `datetime.date`. -/
structure Date where
  year : Nat
  month : Nat
  day : Nat
deriving DecidableEq, Repr

/-- A `Date` that Python's `date` constructor would accept. -/
def Date.Valid (d : Date) : Prop :=
  1 ≤ d.year ∧ 1 ≤ d.month ∧ d.month ≤ 12 ∧ 1 ≤ d.day ∧ d.day ≤ daysInMonth d.year d.month

instance (d : Date) : Decidable d.Valid := by
  unfold Date.Valid; infer_instance

/-- Python `date` comparison is lexicographic on (year, month, day). -/
def Date.ble (a b : Date) : Bool :=
  a.year < b.year ||
    (a.year = b.year && (a.month < b.month ||
      (a.month = b.month && a.day ≤ b.day)))

/-- Days of year `y` that precede month `m` (sum of month lengths). -/
def daysBeforeMonth (y m : Nat) : Nat :=
  (List.range (m - 1)).foldl (fun acc k => acc + daysInMonth y (k + 1)) 0

/-- Python `date.toordinal`: day count in the proleptic Gregorian calendar,
with `0001-01-01` mapped to 1. -/
def Date.toOrd (d : Date) : Nat :=
  365 * (d.year - 1) + (d.year - 1) / 4 + (d.year - 1) / 400 - (d.year - 1) / 100 +
    daysBeforeMonth d.year d.month + d.day

/-- `d + timedelta(days=1)` for a valid date. -/
def Date.nextDay (d : Date) : Date :=
  if d.day < daysInMonth d.year d.month then ⟨d.year, d.month, d.day + 1⟩
  else if d.month < 12 then ⟨d.year, d.month + 1, 1⟩
  else ⟨d.year + 1, 1, 1⟩

/-! ## `app/utils/finance_utils.py` (vercelDeployable variant) -/

/-- Result record of `get_billing_cycle_dates`. -/
structure CycleDates where
  cycle_start : Date
  cycle_end : Date
  next_statement_date : Date
  days_until_statement : Int
deriving DecidableEq, Repr

/-- `finance_utils.get_billing_cycle_dates(statement_date, reference_date)`.
The `reference_date=None` default (today) is resolved by the caller. -/
def get_billing_cycle_dates (statement_date : Nat) (reference_date : Date) : CycleDates :=
  let current_month_statement : Date :=
    ⟨reference_date.year, reference_date.month,
      min statement_date (daysInMonth reference_date.year reference_date.month)⟩
  if Date.ble reference_date current_month_statement then
    -- We're in the current billing cycle
    let prev_month := if reference_date.month = 1 then 12 else reference_date.month - 1
    let prev_year := if reference_date.month = 1 then reference_date.year - 1 else reference_date.year
    let cycle_start :=
      Date.nextDay ⟨prev_year, prev_month, min statement_date (daysInMonth prev_year prev_month)⟩
    { cycle_start := cycle_start
      cycle_end := current_month_statement
      next_statement_date := current_month_statement
      days_until_statement := (current_month_statement.toOrd : Int) - (reference_date.toOrd : Int) }
  else
    -- Statement has passed, we're in next cycle
    let next_month := if reference_date.month = 12 then 1 else reference_date.month + 1
    let next_year := if reference_date.month = 12 then reference_date.year + 1 else reference_date.year
    let next_statement_date : Date :=
      ⟨next_year, next_month, min statement_date (daysInMonth next_year next_month)⟩
    { cycle_start := Date.nextDay current_month_statement
      cycle_end := next_statement_date
      next_statement_date := next_statement_date
      days_until_statement := (next_statement_date.toOrd : Int) - (reference_date.toOrd : Int) }

/-- `finance_utils.calculate_variance_percentage(current, previous)`. -/
def calculate_variance_percentage (current previous : ℚ) : ℚ :=
  if previous = 0 then (if current > 0 then 100 else 0)
  else (current - previous) / previous * 100

/-- `finance_utils.get_trend_indicator(variance_percentage, threshold)`
(the source gives `threshold` the default value `5.0`). -/
def get_trend_indicator (variance_percentage threshold : ℚ) : String :=
  if |variance_percentage| < threshold then "stable"
  else if variance_percentage > 0 then "up" else "down"

/-! ## `app/features/bills/service.py` (vercelDeployable variant) -/

namespace BillService

/-- `BillService._calculate_next_recurrence(recurrence_day, reference_date)`.
(The source's `try/except ValueError` is dead for `recurrence_day ≥ 1`: the
clamped day is always a constructible date, so no exception path is needed.) -/
def calculate_next_recurrence (recurrence_day : Nat) (reference_date : Date) : Date :=
  -- Try current month first
  let next_date : Date :=
    ⟨reference_date.year, reference_date.month,
      min recurrence_day (daysInMonth reference_date.year reference_date.month)⟩
  if Date.ble reference_date next_date then next_date
  else
    -- Move to next month
    let next_month := if reference_date.month = 12 then 1 else reference_date.month + 1
    let next_year := if reference_date.month = 12 then reference_date.year + 1 else reference_date.year
    ⟨next_year, next_month, min recurrence_day (daysInMonth next_year next_month)⟩

end BillService

/-- `Date.ble` is reflexive (Python `d <= d`). -/
theorem Date.ble_refl (d : Date) : Date.ble d d = true := by
  simp [Date.ble]

/-! ## Claim C2 -/

/-- C2: for a statement day-of-month `S` in 1–31 and a reference date,
`get_billing_cycle_dates` clamps `S` to the month's last day to get this
month's statement date `M`; if the reference date is on or before `M` the
cycle runs from the day after last month's clamped statement date to `M`,
with `next_statement_date = M` (and a reference date equal to `M` yields
`days_until_statement = 0`); if the reference date is after `M` the cycle
runs from the day after `M` to next month's clamped statement date; in both
cases `days_until_statement` is the day difference from the reference date to
the next statement date. -/
theorem billing_cycle_dates_spec (S : Nat) (ref : Date)
    (hS1 : 1 ≤ S) (hS2 : S ≤ 31) (href : ref.Valid) :
    (Date.ble ref ⟨ref.year, ref.month, min S (daysInMonth ref.year ref.month)⟩ = true →
      (get_billing_cycle_dates S ref).next_statement_date =
        ⟨ref.year, ref.month, min S (daysInMonth ref.year ref.month)⟩ ∧
      (get_billing_cycle_dates S ref).cycle_end =
        ⟨ref.year, ref.month, min S (daysInMonth ref.year ref.month)⟩ ∧
      (get_billing_cycle_dates S ref).cycle_start = Date.nextDay
        ⟨(if ref.month = 1 then ref.year - 1 else ref.year),
          (if ref.month = 1 then 12 else ref.month - 1),
          min S (daysInMonth (if ref.month = 1 then ref.year - 1 else ref.year)
            (if ref.month = 1 then 12 else ref.month - 1))⟩) ∧
    (ref = ⟨ref.year, ref.month, min S (daysInMonth ref.year ref.month)⟩ →
      (get_billing_cycle_dates S ref).days_until_statement = 0) ∧
    (Date.ble ref ⟨ref.year, ref.month, min S (daysInMonth ref.year ref.month)⟩ = false →
      (get_billing_cycle_dates S ref).next_statement_date =
        ⟨(if ref.month = 12 then ref.year + 1 else ref.year),
          (if ref.month = 12 then 1 else ref.month + 1),
          min S (daysInMonth (if ref.month = 12 then ref.year + 1 else ref.year)
            (if ref.month = 12 then 1 else ref.month + 1))⟩ ∧
      (get_billing_cycle_dates S ref).cycle_end =
        (get_billing_cycle_dates S ref).next_statement_date ∧
      (get_billing_cycle_dates S ref).cycle_start =
        Date.nextDay ⟨ref.year, ref.month, min S (daysInMonth ref.year ref.month)⟩) ∧
    ((get_billing_cycle_dates S ref).days_until_statement =
      ((get_billing_cycle_dates S ref).next_statement_date.toOrd : Int) - (ref.toOrd : Int)) := by
  refine ⟨?_, ?_, ?_, ?_⟩
  · intro h
    simp only [get_billing_cycle_dates]
    rw [if_pos h]
    exact ⟨rfl, rfl, rfl⟩
  · intro h
    have hble : Date.ble ref ⟨ref.year, ref.month, min S (daysInMonth ref.year ref.month)⟩ = true := by
      rw [← h]; exact Date.ble_refl ref
    simp only [get_billing_cycle_dates]
    rw [if_pos hble]
    show (Date.toOrd ⟨ref.year, ref.month, min S (daysInMonth ref.year ref.month)⟩ : Int) -
      (ref.toOrd : Int) = 0
    rw [← h]
    omega
  · intro h
    simp only [get_billing_cycle_dates]
    rw [if_neg (by simp [h])]
    exact ⟨rfl, rfl, rfl⟩
  · by_cases h : Date.ble ref ⟨ref.year, ref.month, min S (daysInMonth ref.year ref.month)⟩ = true
    · simp only [get_billing_cycle_dates]
      rw [if_pos h]
    · simp only [get_billing_cycle_dates]
      rw [if_neg h]

/-- Witness for C2 (spec example): a card with statement day 15, reference
date 2025-03-15 (the 15th itself) gives `days_until_statement = 0` with that
date as both cycle end and next statement date; reference date 2025-03-16
rolls the cycle to the next month's 15th. -/
theorem billing_cycle_dates_spec_witness :
    (get_billing_cycle_dates 15 ⟨2025, 3, 15⟩).days_until_statement = 0 ∧
    (get_billing_cycle_dates 15 ⟨2025, 3, 15⟩).cycle_end = ⟨2025, 3, 15⟩ ∧
    (get_billing_cycle_dates 15 ⟨2025, 3, 15⟩).next_statement_date = ⟨2025, 3, 15⟩ ∧
    (get_billing_cycle_dates 15 ⟨2025, 3, 16⟩).next_statement_date = ⟨2025, 4, 15⟩ := by
  have h1 := billing_cycle_dates_spec 15 ⟨2025, 3, 15⟩ (by norm_num) (by norm_num) (by decide)
  have h2 := billing_cycle_dates_spec 15 ⟨2025, 3, 16⟩ (by norm_num) (by norm_num) (by decide)
  refine ⟨h1.2.1 (by decide), ?_, ?_, ?_⟩
  · exact ((h1.1 (by decide)).2.1).trans (by decide)
  · exact ((h1.1 (by decide)).1).trans (by decide)
  · exact ((h2.2.2.1 (by decide)).1).trans (by decide)

/-! ## Claim C3 -/

/-- C3: for a recurrence day-of-month `D` in 1–31 and a reference date,
`_calculate_next_recurrence` first forms the reference month's date with `D`
clamped to the month's last day and returns it if it is on or after the
reference date; otherwise it returns the same construction one month forward
(December wrapping to January of the next year); in particular `D = 31` with a
February reference date resolves to February 28 (non-leap) or 29 (leap). -/
theorem calculate_next_recurrence_spec (D : Nat) (ref : Date)
    (hD1 : 1 ≤ D) (hD2 : D ≤ 31) (href : ref.Valid) :
    (Date.ble ref ⟨ref.year, ref.month, min D (daysInMonth ref.year ref.month)⟩ = true →
      BillService.calculate_next_recurrence D ref =
        ⟨ref.year, ref.month, min D (daysInMonth ref.year ref.month)⟩) ∧
    (Date.ble ref ⟨ref.year, ref.month, min D (daysInMonth ref.year ref.month)⟩ = false →
      BillService.calculate_next_recurrence D ref =
        ⟨(if ref.month = 12 then ref.year + 1 else ref.year),
          (if ref.month = 12 then 1 else ref.month + 1),
          min D (daysInMonth (if ref.month = 12 then ref.year + 1 else ref.year)
            (if ref.month = 12 then 1 else ref.month + 1))⟩) ∧
    (ref.month = 2 → D = 31 →
      BillService.calculate_next_recurrence D ref =
        ⟨ref.year, 2, if isLeapYear ref.year then 29 else 28⟩) := by
  refine ⟨?_, ?_, ?_⟩
  · intro h
    simp only [BillService.calculate_next_recurrence, h, if_true]
  · intro h
    simp only [BillService.calculate_next_recurrence, h, Bool.false_eq_true, if_false]
  · intro hm hD
    obtain ⟨-, -, -, hd1, hd2⟩ := href
    have hdim : daysInMonth ref.year ref.month = if isLeapYear ref.year then 29 else 28 := by
      simp [daysInMonth, hm]
    have hmin : min D (daysInMonth ref.year ref.month) = daysInMonth ref.year ref.month := by
      rcases Nat.le_total D (daysInMonth ref.year ref.month) with hle | hle
      · rw [hdim] at hle ⊢
        subst hD
        split_ifs at hle ⊢ <;> omega
      · exact Nat.min_eq_right hle
    have hble : Date.ble ref ⟨ref.year, ref.month, min D (daysInMonth ref.year ref.month)⟩ = true := by
      simp only [Date.ble, hmin]
      simp [hd2]
    simp only [BillService.calculate_next_recurrence]
    rw [if_pos hble, hmin, hdim, hm]

/-- Witness for C3 (spec example): recurrence day 31 with a February reference
in non-leap 2025 resolves to February 28; in leap 2024 to February 29. -/
theorem calculate_next_recurrence_spec_witness :
    BillService.calculate_next_recurrence 31 ⟨2025, 2, 10⟩ = ⟨2025, 2, 28⟩ ∧
    BillService.calculate_next_recurrence 31 ⟨2024, 2, 10⟩ = ⟨2024, 2, 29⟩ := by
  have h1 := (calculate_next_recurrence_spec 31 ⟨2025, 2, 10⟩ (by norm_num) (by norm_num)
    (by decide)).2.2 rfl rfl
  have h2 := (calculate_next_recurrence_spec 31 ⟨2024, 2, 10⟩ (by norm_num) (by norm_num)
    (by decide)).2.2 rfl rfl
  exact ⟨h1.trans (by decide), h2.trans (by decide)⟩

/-! ## Claim C8 -/

/-- C8: `calculate_variance_percentage` returns 100 when the previous value is
zero and the current is positive, 0 when both are zero, and otherwise (for a
nonzero previous value) `(current − previous)/previous × 100`; and
`get_trend_indicator` (threshold 5) returns "stable" exactly when the absolute
variance is below 5, otherwise "up" for positive and "down" for negative
variance. -/
theorem variance_and_trend_special_cases (current previous v : ℚ) :
    (previous = 0 → 0 < current → calculate_variance_percentage current previous = 100) ∧
    (previous = 0 → current = 0 → calculate_variance_percentage current previous = 0) ∧
    (previous ≠ 0 →
      calculate_variance_percentage current previous = (current - previous) / previous * 100) ∧
    (|v| < 5 → get_trend_indicator v 5 = "stable") ∧
    (5 ≤ |v| → 0 < v → get_trend_indicator v 5 = "up") ∧
    (5 ≤ |v| → v < 0 → get_trend_indicator v 5 = "down") := by
  refine ⟨?_, ?_, ?_, ?_, ?_, ?_⟩
  · intro hp hc
    simp [calculate_variance_percentage, hp, hc]
  · intro hp hc
    simp [calculate_variance_percentage, hp, hc]
  · intro hp
    simp [calculate_variance_percentage, hp]
  · intro hv
    simp [get_trend_indicator, hv]
  · intro hv hpos
    rw [get_trend_indicator, if_neg (by linarith), if_pos hpos]
  · intro hv hneg
    rw [get_trend_indicator, if_neg (by linarith), if_neg (by linarith)]

/-- Witness for C8 at the spec's concrete examples: previous=0, current=100
gives variance 100 and trend "up"; both zero gives 0 and "stable"; 100→103 is a
3% variance, below the 5 threshold, so "stable". -/
theorem variance_and_trend_special_cases_witness :
    calculate_variance_percentage 100 0 = 100 ∧
    calculate_variance_percentage 0 0 = 0 ∧
    calculate_variance_percentage 103 100 = 3 ∧
    get_trend_indicator 100 5 = "up" ∧
    get_trend_indicator 0 5 = "stable" ∧
    get_trend_indicator 3 5 = "stable" := by
  refine ⟨(variance_and_trend_special_cases 100 0 0).1 rfl (by norm_num),
    (variance_and_trend_special_cases 0 0 0).2.1 rfl rfl, ?_,
    (variance_and_trend_special_cases 0 0 100).2.2.2.2.1 (by norm_num) (by norm_num),
    (variance_and_trend_special_cases 0 0 0).2.2.2.1 (by norm_num),
    (variance_and_trend_special_cases 0 0 3).2.2.2.1 (by norm_num)⟩
  rw [(variance_and_trend_special_cases 103 100 0).2.2.1 (by norm_num)]
  norm_num

/-- `d + timedelta(days=n)` for a valid date. -/
def Date.addDays (d : Date) (n : Nat) : Date :=
  Date.nextDay^[n] d

/-! ## Relational rows (`models.py` of the vercelDeployable variant) -/

/-- Opaque row identifiers (UUIDs in the source). -/
abbrev Uuid := Nat

/-- A row of the `transactions` table (`created_at`/`raw_content_hash` dedup
metadata carried along; timestamps are irrelevant to the claims). -/
structure Transaction where
  id : Uuid
  user_id : Uuid
  raw_content_hash : String
  amount : ℚ
  currency : String
  merchant_name : Option String
  category : String
  sub_category : String
  status : String
  account_type : String
  remarks : Option String
  tags : Option (List String)
  is_surety : Bool
  credit_card_id : Option Uuid
  transaction_date : Option Date
  is_manual : Bool
  is_settled : Bool
deriving DecidableEq, Repr

/-- A row of the `sub_categories` table. -/
structure SubCategory where
  id : Uuid
  name : String
  icon : Option String
  color : Option String
  type : String
  is_surety : Bool
  category_id : Uuid
  user_id : Option Uuid
deriving DecidableEq, Repr

/-- A row of the `bills` table. -/
structure Bill where
  id : Uuid
  user_id : Uuid
  title : String
  amount : ℚ
  due_date : Date
  is_paid : Bool
  is_recurring : Bool
  recurrence_day : Option Nat
  category : String
  sub_category : String
deriving DecidableEq, Repr

/-! ## `app/features/credit_cards/service.py` (vercelDeployable variant) -/

namespace CreditCardService

/-- `CreditCardService.get_unbilled_amount(db, card_id, cycle_start, cycle_end)`:
the sum of `amount` over transactions referencing the card with
`is_settled = False`, negated ("Ignores cycle dates in favor of explicit
is_settled status" per the source's docstring — the two date parameters are
accepted but never used). The db session is the list of transaction rows. -/
def get_unbilled_amount (db : List Transaction) (card_id : Uuid)
    (cycle_start cycle_end : Date) : ℚ :=
  -((db.filter (fun t => t.credit_card_id == some card_id && t.is_settled == false)).map
      (fun t => t.amount)).sum

end CreditCardService

/-! ## Claim C4 -/

/-- C4: `get_unbilled_amount` equals the negation of the sum of amounts of the
card's transactions with `is_settled = false`; it does not depend on the
`cycle_start`/`cycle_end` arguments, and transactions with `is_settled = true`
do not contribute. -/
theorem unbilled_amount_spec (db : List Transaction) (card_id : Uuid)
    (cs ce cs' ce' : Date) :
    (CreditCardService.get_unbilled_amount db card_id cs ce =
      -((db.filter (fun t => t.credit_card_id == some card_id && t.is_settled == false)).map
          (fun t => t.amount)).sum) ∧
    (CreditCardService.get_unbilled_amount db card_id cs ce =
      CreditCardService.get_unbilled_amount db card_id cs' ce') ∧
    (∀ t : Transaction, t.is_settled = true →
      CreditCardService.get_unbilled_amount (t :: db) card_id cs ce =
        CreditCardService.get_unbilled_amount db card_id cs ce) := by
  refine ⟨rfl, rfl, ?_⟩
  intro t ht
  simp [CreditCardService.get_unbilled_amount, ht]

/-- Witness for C4: a card with one unsettled expense of −1000 and one settled
expense of −400 has unbilled amount 1000 whatever cycle dates are passed. -/
theorem unbilled_amount_spec_witness :
    CreditCardService.get_unbilled_amount
      [{ id := 2, user_id := 7, raw_content_hash := "h2", amount := -400, currency := "INR",
         merchant_name := none, category := "Food", sub_category := "Eating Out",
         status := "VERIFIED", account_type := "CREDIT_CARD", remarks := none, tags := none,
         is_surety := false, credit_card_id := some 9, transaction_date := none,
         is_manual := false, is_settled := true },
       { id := 3, user_id := 7, raw_content_hash := "h3", amount := -1000, currency := "INR",
         merchant_name := none, category := "Shopping", sub_category := "Online",
         status := "VERIFIED", account_type := "CREDIT_CARD", remarks := none, tags := none,
         is_surety := false, credit_card_id := some 9, transaction_date := none,
         is_manual := false, is_settled := false }]
      9 ⟨2025, 1, 16⟩ ⟨2025, 2, 15⟩ = 1000 := by
  have h := (unbilled_amount_spec
    [{ id := 3, user_id := 7, raw_content_hash := "h3", amount := -1000, currency := "INR",
       merchant_name := none, category := "Shopping", sub_category := "Online",
       status := "VERIFIED", account_type := "CREDIT_CARD", remarks := none, tags := none,
       is_surety := false, credit_card_id := some 9, transaction_date := none,
       is_manual := false, is_settled := false }]
    9 ⟨2025, 1, 16⟩ ⟨2025, 2, 15⟩ ⟨2025, 1, 16⟩ ⟨2025, 2, 15⟩).2.2
    { id := 2, user_id := 7, raw_content_hash := "h2", amount := -400, currency := "INR",
      merchant_name := none, category := "Food", sub_category := "Eating Out",
      status := "VERIFIED", account_type := "CREDIT_CARD", remarks := none, tags := none,
      is_surety := false, credit_card_id := some 9, transaction_date := none,
      is_manual := false, is_settled := true } rfl
  rw [h]
  norm_num [CreditCardService.get_unbilled_amount]

/-! ## `app/features/transactions/service.py` (vercelDeployable variant) -/

namespace TransactionService

/-- `TransactionService._resolve_surety(sub_category_name)`: `False` for an
empty name (Python falsiness); otherwise the `is_surety` flag of the first
`SubCategory` row whose `name` matches — the query has no user scoping and
`limit(1)` — with `False` when no row matches (`result.scalar() or False`). -/
def resolve_surety (sub_categories : List SubCategory) (sub_category_name : String) : Bool :=
  if sub_category_name = "" then false
  else
    match sub_categories.find? (fun sc => sc.name == sub_category_name) with
    | none => false
    | some sc => sc.is_surety

/-- `TransactionService.toggle_settled_status(transaction_id, user_id)`:
select the transaction by id and owning user (`scalar_one_or_none`; ids are
primary keys, so at most one row matches), 404 if absent, flip `is_settled`,
commit. Returns the updated row and the updated row list; the icon-attachment
step only decorates transient display fields and is not part of the row
state. -/
def toggle_settled_status (db : List Transaction) (transaction_id user_id : Uuid) :
    Except (Nat × String) (Transaction × List Transaction) :=
  match db.find? (fun t => t.id == transaction_id && t.user_id == user_id) with
  | none => .error (404, "Transaction not found")
  | some txn =>
    let txn' := { txn with is_settled := !txn.is_settled }
    .ok (txn', db.map (fun t => if t.id == txn.id && t.user_id == txn.user_id then txn' else t))

end TransactionService

/-! ## Claim C5 -/

/-- A manually entered savings-account transaction with no credit card
attached, used to refute the "credit-card debts only" reading of C5. -/
def cashTxn : Transaction :=
  { id := 1, user_id := 7, raw_content_hash := "h1", amount := -250, currency := "INR",
    merchant_name := some "Cafe", category := "Food", sub_category := "Eating Out",
    status := "VERIFIED", account_type := "SAVINGS", remarks := none, tags := none,
    is_surety := false, credit_card_id := none, transaction_date := none,
    is_manual := true, is_settled := false }

/-- C5 counterexample: `toggle_settled_status` is not restricted to
credit-card debts — a transaction with `credit_card_id = None` owned by the
caller is toggled successfully (no 404, no rejection), so the operation does
not "apply to credit-card debts only". -/
theorem toggle_settled_no_card_counterexample :
    cashTxn.credit_card_id = none ∧
    TransactionService.toggle_settled_status [cashTxn] 1 7 =
      .ok ({ cashTxn with is_settled := true }, [{ cashTxn with is_settled := true }]) := by
  exact ⟨rfl, rfl⟩

/-- C5 (amended): for every transaction owned by the caller (matched by id and
user), `toggle_settled_status` flips `is_settled` and leaves every other field
of that transaction (and all other rows) unchanged, regardless of whether the
transaction is attached to a credit card; an id with no row owned by the
caller yields a 404 "Transaction not found". -/
theorem toggle_settled_spec (db : List Transaction) (tid uid : Uuid) :
    (db.find? (fun t => t.id == tid && t.user_id == uid) = none →
      TransactionService.toggle_settled_status db tid uid =
        .error (404, "Transaction not found")) ∧
    (∀ txn, db.find? (fun t => t.id == tid && t.user_id == uid) = some txn →
      TransactionService.toggle_settled_status db tid uid =
        .ok ({ txn with is_settled := !txn.is_settled },
          db.map (fun t => if t.id == txn.id && t.user_id == txn.user_id then
            { txn with is_settled := !txn.is_settled } else t))) := by
  constructor
  · intro h
    simp only [TransactionService.toggle_settled_status, h]
  · intro txn h
    simp only [TransactionService.toggle_settled_status, h]

/-- Witness for C5: applying the amended theorem to a one-row database — the
lookup by a wrong user id 404s, and the owner's toggle flips `is_settled`
only. -/
theorem toggle_settled_spec_witness :
    TransactionService.toggle_settled_status [cashTxn] 1 8 =
      .error (404, "Transaction not found") ∧
    TransactionService.toggle_settled_status [cashTxn] 1 7 =
      .ok ({ cashTxn with is_settled := true },
        [{ cashTxn with is_settled := true }]) := by
  constructor
  · exact (toggle_settled_spec [cashTxn] 1 8).1 rfl
  · exact ((toggle_settled_spec [cashTxn] 1 7).2 cashTxn rfl).trans (by rfl)

/-! ## `BillService.get_projected_surety_bills` (vercelDeployable variant) -/

namespace BillService

/-- The surety sub-category name set used by `get_projected_surety_bills`:
`select(SubCategory.name).where(SubCategory.is_surety == True)` — note the
absence of any user filter. -/
def surety_sub_names (sub_categories : List SubCategory) : List String :=
  (sub_categories.filter (fun sc => sc.is_surety)).map (fun sc => sc.name)

/-- `BillService.get_projected_surety_bills(db, user_id, days_ahead)`, with
"today" (resolved from the configured timezone in the source) passed
explicitly. `bills` and `sub_categories` are the two table contents. -/
def get_projected_surety_bills (bills : List Bill) (sub_categories : List SubCategory)
    (user_id : Uuid) (days_ahead : Nat) (today : Date) : ℚ :=
  let threshold_date := today.addDays days_ahead
  let recurring_bills := bills.filter (fun b => b.user_id == user_id && b.is_recurring)
  let surety_subs := surety_sub_names sub_categories
  recurring_bills.foldl (fun projected_total bill =>
    if surety_subs.contains bill.sub_category then
      -- Python truthiness: `if bill.recurrence_day:` skips None and 0
      match bill.recurrence_day with
      | none => projected_total
      | some d =>
        if d ≠ 0 then
          let next_due := calculate_next_recurrence d today
          if Date.ble next_due threshold_date && !bill.is_paid then
            projected_total + bill.amount
          else projected_total
        else projected_total
    else projected_total) 0

end BillService

/-! ## Claim C10 -/

/-- Surety-name collection ignores the owning user of each sub-category row. -/
theorem surety_sub_names_ignores_owner (subs : List SubCategory)
    (f : SubCategory → Option Uuid) :
    BillService.surety_sub_names (subs.map (fun sc => { sc with user_id := f sc })) =
      BillService.surety_sub_names subs := by
  induction subs with
  | nil => rfl
  | cons sc rest ih =>
    by_cases h : sc.is_surety <;>
      simp [BillService.surety_sub_names, h, List.filter_cons] at ih ⊢ <;> exact ih

set_option maxRecDepth 10000 in
set_option maxHeartbeats 1600000 in
/-- C10: surety classification is not scoped to the owning user —
`get_projected_surety_bills` and `_resolve_surety` are invariant under
arbitrary reassignment of every sub-category row's owning user (they match by
name against all users' rows), and concretely a surety sub-category owned by
user 2 makes user 1's recurring bill count toward user 1's projected surety
total (500 with the foreign row present, 0 without it). -/
theorem surety_not_user_scoped (bills : List Bill) (subs : List SubCategory)
    (uid : Uuid) (days : Nat) (today : Date) (name : String)
    (f : SubCategory → Option Uuid) :
    (BillService.get_projected_surety_bills bills
        (subs.map (fun sc => { sc with user_id := f sc })) uid days today =
      BillService.get_projected_surety_bills bills subs uid days today) ∧
    (TransactionService.resolve_surety (subs.map (fun sc => { sc with user_id := f sc })) name =
      TransactionService.resolve_surety subs name) ∧
    (BillService.get_projected_surety_bills
        [{ id := 11, user_id := 1, title := "Rent", amount := 500, due_date := ⟨2025, 7, 5⟩,
           is_paid := false, is_recurring := true, recurrence_day := some 5,
           category := "Housing", sub_category := "Rent" }]
        [{ id := 21, name := "Rent", icon := none, color := none, type := "EXPENSE",
           is_surety := true, category_id := 31, user_id := some 2 }]
        1 30 ⟨2025, 6, 10⟩ = 500 ∧
      BillService.get_projected_surety_bills
        [{ id := 11, user_id := 1, title := "Rent", amount := 500, due_date := ⟨2025, 7, 5⟩,
           is_paid := false, is_recurring := true, recurrence_day := some 5,
           category := "Housing", sub_category := "Rent" }]
        [] 1 30 ⟨2025, 6, 10⟩ = 0) := by
  refine ⟨?_, ?_, ⟨?_, ?_⟩⟩
  case refine_3 =>
    show (0 : ℚ) + 500 = 500
    norm_num
  case refine_4 =>
    show (0 : ℚ) = 0
    rfl
  · simp only [BillService.get_projected_surety_bills, surety_sub_names_ignores_owner]
  · simp only [TransactionService.resolve_surety]
    split
    · rfl
    · induction subs with
      | nil => rfl
      | cons sc rest ih =>
        by_cases h : sc.name == name
        · simp [List.find?, h]
        · simp only [List.find?, h] at ih ⊢
          exact ih

/-! ## `app/features/wealth/service.py` (Backend variant) -/

/-- A row of the `investment_snapshots` table: the fields read or written by
`recalculate_holding_history` and `calculate_xirr`. `captured_at` is stored
as the date's ordinal (`date.toordinal`), which is all the source uses it
for; Python float arithmetic is modelled with `ℚ`. -/
structure InvestmentSnapshot where
  captured_at : Nat
  units_held : ℚ
  price_per_unit : ℚ
  total_value : ℚ
  amount_invested_delta : ℚ
deriving DecidableEq, Repr

/-- The per-holding state touched by `recalculate_holding_history`: the
holding's snapshot rows (ordered by `captured_at`, as the query returns them)
and the cached holding fields it rewrites (`last_updated_at` is a wall-clock
timestamp, outside the claims). -/
structure HoldingState where
  snapshots : List InvestmentSnapshot
  current_value : ℚ
  total_invested : ℚ
  xirr : ℚ
deriving DecidableEq, Repr

namespace WealthService

/-- The `for snap in snapshots:` walk of `recalculate_holding_history`,
threading the `running_units` and `total_invested` accumulators: clamp a
non-positive `price_per_unit` to 1.0 (the source mutates the stored field),
re-derive the day's units as `amount_invested_delta / price_per_unit`,
accumulate, and rewrite `units_held`/`total_value`. Returns the rewritten
rows and the two final accumulators. -/
def recalc_walk : List InvestmentSnapshot → ℚ → ℚ → List InvestmentSnapshot × ℚ × ℚ
  | [], running_units, total_invested => ([], running_units, total_invested)
  | snap :: rest, running_units, total_invested =>
    let price := if snap.price_per_unit ≤ 0 then 1 else snap.price_per_unit
    let day_units := snap.amount_invested_delta / price
    let running_units' := running_units + day_units
    let total_invested' := total_invested + snap.amount_invested_delta
    let snap' : InvestmentSnapshot :=
      { snap with
        price_per_unit := price
        units_held := running_units'
        total_value := running_units' * price }
    let res := recalc_walk rest running_units' total_invested'
    (snap' :: res.1, res.2)

/-- `WealthService.recalculate_holding_history(holding_id)` acting on one
holding's state. `self.calculate_xirr` is a deterministic function of the
snapshot list (see `calculate_xirr` below, abstracted over the numeric
solver), passed here as `xirrFn`. With no snapshots the cached holding
fields are left unchanged (`if snapshots:` guard). -/
def recalculate_holding_history (xirrFn : List InvestmentSnapshot → ℚ)
    (h : HoldingState) : HoldingState :=
  let walked := recalc_walk h.snapshots 0 0
  match walked.1 with
  | [] => { h with snapshots := [] }
  | s :: rest =>
    { snapshots := s :: rest
      current_value := ((s :: rest).getLast (by simp)).total_value
      total_invested := walked.2.2
      xirr := xirrFn (s :: rest) }

/-- The cash-flow list built by `calculate_xirr`: one `(date, −delta)` flow
per snapshot whose `|amount_invested_delta| > 0.01`, plus a terminal
`(last date, last total_value)` flow. -/
def xirr_flows (snapshots : List InvestmentSnapshot) : List (Nat × ℚ) :=
  match snapshots.getLast? with
  | none => []
  | some last_snap =>
    (snapshots.filter (fun s => |s.amount_invested_delta| > 1 / 100)).map
        (fun s => (s.captured_at, -s.amount_invested_delta)) ++
      [(last_snap.captured_at, last_snap.total_value)]

/-- `WealthService.calculate_xirr(snapshots)`. The numeric core —
`optimize.newton(xnpv, 0.1, fprime=xnpv_prime, maxiter=50)` on the
transcendental `xnpv(rate) = Σ aᵢ/(1+rate)^((dᵢ−d₀)/365)` in floating
point — is abstracted as `solver flows guess maxiter`, returning `some rate`
on convergence and `none` whenever scipy would raise (non-convergence after
`maxiter` iterations, or any arithmetic error), which the source catches with
`except Exception: return 0.0`. -/
def calculate_xirr (solver : List (Nat × ℚ) → ℚ → Nat → Option ℚ)
    (snapshots : List InvestmentSnapshot) : ℚ :=
  if snapshots.isEmpty then 0
  else
    let amounts := xirr_flows snapshots
    if amounts.length < 2 then 0
    else
      match solver amounts (1 / 10) 50 with
      | none => 0
      | some res => res * 100

end WealthService

/-! ## Claim C6 -/

/-- A clamped price is never non-positive again. -/
theorem recalc_clamp_pos (q : ℚ) : ¬((if q ≤ 0 then (1 : ℚ) else q) ≤ 0) := by
  split_ifs with h
  · norm_num
  · exact h

/-- One full pass of the recalculation walk is a fixed point of the walk:
re-walking its output with the same starting accumulators changes nothing. -/
theorem recalc_walk_idem (l : List InvestmentSnapshot) :
    ∀ ru ti : ℚ, WealthService.recalc_walk (WealthService.recalc_walk l ru ti).1 ru ti =
      WealthService.recalc_walk l ru ti := by
  induction l with
  | nil => intro ru ti; rfl
  | cons snap rest ih =>
    intro ru ti
    simp only [WealthService.recalc_walk, if_neg (recalc_clamp_pos snap.price_per_unit)]
    rw [ih]

/-- C6: with a fixed snapshot set, running `recalculate_holding_history` twice
in a row produces exactly the same `units_held`, `price_per_unit` and
`total_value` on every snapshot and the same cached `current_value`,
`total_invested` and `xirr` as running it once — for any deterministic xirr
function of the snapshot list. -/
theorem recalculate_holding_history_idempotent
    (xirrFn : List InvestmentSnapshot → ℚ) (h : HoldingState) :
    WealthService.recalculate_holding_history xirrFn
        (WealthService.recalculate_holding_history xirrFn h) =
      WealthService.recalculate_holding_history xirrFn h := by
  have hw := recalc_walk_idem h.snapshots 0 0
  simp only [WealthService.recalculate_holding_history]
  cases hl : (WealthService.recalc_walk h.snapshots 0 0).1 with
  | nil =>
    simp only [hl] at hw ⊢
    simp [WealthService.recalc_walk]
  | cons s rest =>
    rw [hl] at hw
    simp only [hl, hw]

/-! ## Claim C7 -/

/-- C7: `calculate_xirr` builds one sign-flipped cash flow per snapshot with
`|amount_invested_delta| > 0.01` plus a terminal flow equal to the last
snapshot's `total_value`; whenever fewer than 2 flows result, or the
Newton–Raphson solve (initial guess 0.1, at most 50 iterations) fails, it
returns exactly 0.0 instead of raising; otherwise it returns the solved rate
multiplied by 100. -/
theorem calculate_xirr_fallback (solver : List (Nat × ℚ) → ℚ → Nat → Option ℚ)
    (snapshots : List InvestmentSnapshot) :
    (∀ last_snap, snapshots.getLast? = some last_snap →
      WealthService.xirr_flows snapshots =
        (snapshots.filter (fun s => |s.amount_invested_delta| > 1 / 100)).map
            (fun s => (s.captured_at, -s.amount_invested_delta)) ++
          [(last_snap.captured_at, last_snap.total_value)]) ∧
    ((WealthService.xirr_flows snapshots).length < 2 →
      WealthService.calculate_xirr solver snapshots = 0) ∧
    (solver (WealthService.xirr_flows snapshots) (1 / 10) 50 = none →
      WealthService.calculate_xirr solver snapshots = 0) ∧
    (∀ r, 2 ≤ (WealthService.xirr_flows snapshots).length →
      solver (WealthService.xirr_flows snapshots) (1 / 10) 50 = some r →
      WealthService.calculate_xirr solver snapshots = r * 100) := by
  refine ⟨?_, ?_, ?_, ?_⟩
  · intro last_snap hlast
    simp only [WealthService.xirr_flows, hlast]
  · intro hlen
    simp only [WealthService.calculate_xirr]
    by_cases he : snapshots.isEmpty = true
    · rw [if_pos he]
    · rw [if_neg he, if_pos hlen]
  · intro hsolve
    simp only [WealthService.calculate_xirr]
    by_cases he : snapshots.isEmpty = true
    · rw [if_pos he]
    · rw [if_neg he]
      by_cases hlen : (WealthService.xirr_flows snapshots).length < 2
      · rw [if_pos hlen]
      · rw [if_neg hlen, hsolve]
  · intro r hlen hsolve
    have hne : ¬(snapshots.isEmpty = true) := by
      cases snapshots with
      | nil => simp [WealthService.xirr_flows] at hlen
      | cons a l => simp
    simp only [WealthService.calculate_xirr]
    rw [if_neg hne, if_neg (Nat.not_lt.mpr hlen), hsolve]

/-- Witness for C7: on a single snapshot with an invested delta of 1000 and
value 1100, the two flows are built as claimed; a solver that fails yields 0,
a solver returning rate 1/4 yields 25; a delta of 0 leaves only the terminal
flow, so the result is 0 whatever the solver would do. -/
theorem calculate_xirr_fallback_witness :
    WealthService.xirr_flows [⟨738000, 10, 100, 1100, 1000⟩] =
      [(738000, -1000), (738000, 1100)] ∧
    WealthService.calculate_xirr (fun _ _ _ => none) [⟨738000, 10, 100, 1100, 1000⟩] = 0 ∧
    WealthService.calculate_xirr (fun _ _ _ => some (1 / 4)) [⟨738000, 10, 100, 1100, 1000⟩] = 25 ∧
    WealthService.calculate_xirr (fun _ _ _ => some (1 / 4)) [⟨738000, 10, 100, 1100, 0⟩] = 0 := by
  have hflows : WealthService.xirr_flows [⟨738000, 10, 100, 1100, 1000⟩] =
      [(738000, -1000), (738000, 1100)] := by
    refine ((calculate_xirr_fallback (fun _ _ _ => none)
      [⟨738000, 10, 100, 1100, 1000⟩]).1 ⟨738000, 10, 100, 1100, 1000⟩ rfl).trans ?_
    norm_num [List.filter]
  refine ⟨hflows, ?_, ?_, ?_⟩
  · exact (calculate_xirr_fallback (fun _ _ _ => none)
      [⟨738000, 10, 100, 1100, 1000⟩]).2.2.1 rfl
  · exact ((calculate_xirr_fallback (fun _ _ _ => some (1 / 4))
      [⟨738000, 10, 100, 1100, 1000⟩]).2.2.2 (1 / 4) (by rw [hflows]; norm_num) rfl).trans
      (by norm_num)
  · refine (calculate_xirr_fallback (fun _ _ _ => some (1 / 4))
      [⟨738000, 10, 100, 1100, 0⟩]).2.1 ?_
    have h0 : WealthService.xirr_flows [⟨738000, 10, 100, 1100, 0⟩] = [(738000, 1100)] := by
      refine ((calculate_xirr_fallback (fun _ _ _ => none)
        [⟨738000, 10, 100, 1100, 0⟩]).1 ⟨738000, 10, 100, 1100, 0⟩ rfl).trans ?_
      norm_num [List.filter]
    rw [h0]
    norm_num

/-! ## `app/features/analytics/service.py` (Backend variant) -/

/-- The `FrozenFundsBreakdown` schema returned by
`AnalyticsService.calculate_burden`. -/
structure FrozenFundsBreakdown where
  unpaid_bills : ℚ
  projected_surety : ℚ
  unbilled_cc : ℚ
  active_goals : ℚ
  total_frozen : ℚ
deriving DecidableEq, Repr

/-- The `SafeToSpendResponse` schema (the fields the claims speak about). -/
structure SafeToSpendResponse where
  current_balance : ℚ
  frozen_funds : FrozenFundsBreakdown
  buffer_amount : ℚ
  buffer_percentage : ℚ
  safe_to_spend : ℚ
  recommendation : String
  status : String
deriving DecidableEq, Repr

/-- Round half-to-even to an integer, as Python's `"{x:.0f}"` format does for
`Decimal` values (`ROUND_HALF_EVEN`). -/
def roundHalfEven (q : ℚ) : ℤ :=
  if q - ⌊q⌋ < 1 / 2 then ⌊q⌋
  else if q - ⌊q⌋ > 1 / 2 then ⌊q⌋ + 1
  else if ⌊q⌋ % 2 = 0 then ⌊q⌋ else ⌊q⌋ + 1

/-- Python `f"{x:.0f}"` on a `Decimal`: half-even rounding to an integer, with
a leading minus sign for negative inputs (Python prints "-0" for a negative
value rounding to zero; the service only formats non-negative amounts). -/
def formatF0 (q : ℚ) : String :=
  if q < 0 then "-" ++ toString (roundHalfEven (-q)).toNat
  else toString (roundHalfEven q).toNat

namespace AnalyticsService

/-- `strftime("%b")` month abbreviations (C locale). -/
def monthAbbrev (m : Nat) : String :=
  match m with
  | 1 => "Jan"
  | 2 => "Feb"
  | 3 => "Mar"
  | 4 => "Apr"
  | 5 => "May"
  | 6 => "Jun"
  | 7 => "Jul"
  | 8 => "Aug"
  | 9 => "Sep"
  | 10 => "Oct"
  | 11 => "Nov"
  | 12 => "Dec"
  | _ => ""

/-- Days till salary (the 1st of next month): 30 if today is the 1st,
otherwise days remaining in the current month (`last_day - today.day + 1`). -/
def days_till_salary (today : Date) : Nat :=
  if today.day = 1 then 30
  else daysInMonth today.year today.month - today.day + 1

/-- Current liquid balance: signed sum of the user's transactions whose
`account_type` is CASH or SAVINGS. -/
def liquid_balance (txns : List Transaction) : ℚ :=
  ((txns.filter (fun t => t.account_type == "CASH" || t.account_type == "SAVINGS")).map
    (fun t => t.amount)).sum

/-- The discretionary filter of the buffer step (mirrored by the source's
`debug_buffer_Calculation`): excluded categories, sub-category
"Credit Card Payment", surety-flagged rows, rows with `|amount| > 5000`, and
rows whose `transaction_date` is NULL or outside the trailing 30 days (SQL
comparisons with NULL are false, so NULL-dated rows never qualify). -/
def discretionary_pred (today : Date) (t : Transaction) : Bool :=
  decide (t.category ∉ ["Income", "Investment", "Housing", "Bill Payment", "Transfer",
    "EMI", "Loan", "Insurance", "Misc"]) &&
  t.sub_category != "Credit Card Payment" &&
  t.is_surety == false &&
  decide (|t.amount| ≤ 5000) &&
  (match t.transaction_date with
    | none => false
    | some d => decide (today.toOrd ≤ d.toOrd + 30) && decide (d.toOrd ≤ today.toOrd))

/-- Sum of discretionary amounts over the trailing 30 days, absolute value
(`abs(result.scalar() or 0)`). -/
def total_discretionary_30d (today : Date) (txns : List Transaction) : ℚ :=
  |((txns.filter (discretionary_pred today)).map (fun t => t.amount)).sum|

/-- `AnalyticsService.calculate_safe_to_spend_amount(db, user_id)` acting on
the caller's transaction rows. "Today" (resolved from the configured
timezone) and the result of `self.calculate_burden` (whose bill / credit-card
/ goal queries are independent of this claim) are passed explicitly. All
operations of the embedding are total, so the source's `except` fallback
branch is unreachable. -/
def calculate_safe_to_spend_amount (today : Date) (txns : List Transaction)
    (frozen_breakdown : FrozenFundsBreakdown) : SafeToSpendResponse :=
  let current_balance := liquid_balance txns
  let total_transactions := txns.length
  let is_new_user : Bool := total_transactions == 0
  let avg_daily_discretionary := total_discretionary_30d today txns / 30
  let buffer0 := avg_daily_discretionary * (days_till_salary today : ℚ)
  -- minimum buffer of 500 only with a positive balance; 0 otherwise
  let buffer : ℚ := if current_balance > 0 then max buffer0 500 else 0
  let safe_amount : ℚ :=
    if current_balance ≤ 0 then 0
    else max 0 (current_balance - frozen_breakdown.total_frozen - buffer)
  let buffer_percentage : ℚ := if current_balance > 0 then buffer / current_balance else 0
  -- salary date display: the 1st of next month, "%b %d"
  let salary_str : String :=
    monthAbbrev (if today.month = 12 then 1 else today.month + 1) ++ " 01"
  let status : String :=
    if is_new_user then "success"
    else if current_balance < 0 then "negative"
    else if current_balance = 0 then "warning"
    else if safe_amount = 0 then "critical"
    else if safe_amount < current_balance * (0.20 : ℚ) then "warning"
    else "success"
  let recommendation : String :=
    if is_new_user then
      "ðŸ‘‹ Welcome! Add your first transaction to start tracking your finances."
    else if current_balance < 0 then
      "ðŸ“‰ Balance is â‚¹" ++ formatF0 |current_balance| ++ " in deficit. Add income to recover."
    else if current_balance = 0 then
      "âš\xa0ï¸ No liquid balance available. Please add income transactions."
    else if safe_amount = 0 then
      "ðŸ”’ Overextended by â‚¹" ++
        formatF0 (frozen_breakdown.total_frozen + buffer - current_balance) ++
        ". Frozen + Buffer exceed balance."
    else if safe_amount < current_balance * (0.20 : ℚ) then
      "âš¡ Low capacity. â‚¹" ++ formatF0 buffer ++ " reserved till salary (" ++ salary_str ++ ")"
    else
      "âœ… Healthy! â‚¹" ++ formatF0 buffer ++ " buffered till salary (" ++ salary_str ++ ")"
  { current_balance := current_balance
    frozen_funds := frozen_breakdown
    buffer_amount := buffer
    buffer_percentage := buffer_percentage
    safe_to_spend := safe_amount
    recommendation := recommendation
    status := status }

end AnalyticsService

/-! ## Claim C1 -/

/-- C1 counterexample: a user with no transactions at all has computed liquid
balance exactly 0, yet `calculate_safe_to_spend_amount` returns status
"success" (the new-user branch precedes the zero-balance branch), not
"warning" — so "balance exactly 0 implies status warning" is false as
stated. -/
theorem safe_to_spend_zero_balance_counterexample :
    (AnalyticsService.calculate_safe_to_spend_amount ⟨2025, 6, 10⟩ [] ⟨0, 0, 0, 0, 0⟩).current_balance
        = 0 ∧
    (AnalyticsService.calculate_safe_to_spend_amount ⟨2025, 6, 10⟩ [] ⟨0, 0, 0, 0, 0⟩).status
        = "success" ∧
    ¬((AnalyticsService.calculate_safe_to_spend_amount ⟨2025, 6, 10⟩ [] ⟨0, 0, 0, 0, 0⟩).status
        = "warning") := by
  refine ⟨rfl, rfl, ?_⟩
  intro h
  simp only [AnalyticsService.calculate_safe_to_spend_amount] at h
  exact absurd h (by decide)

/-- C1 (amended): for every user (transaction list), date and burden result:
if the computed liquid balance is ≤ 0 then `safe_to_spend` is exactly 0;
if the balance is exactly 0 and the user has at least one transaction the
status is "warning" (a user with no transactions gets the new-user status
"success" instead); if the balance is negative the status is "negative" and
the recommendation embeds the formatted deficit magnitude; and for positive
balance `safe_to_spend = max 0 (balance − total_frozen − buffer)`. -/
theorem safe_to_spend_boundaries (today : Date) (txns : List Transaction)
    (fb : FrozenFundsBreakdown) :
    ((AnalyticsService.calculate_safe_to_spend_amount today txns fb).current_balance ≤ 0 →
      (AnalyticsService.calculate_safe_to_spend_amount today txns fb).safe_to_spend = 0) ∧
    (txns ≠ [] →
      (AnalyticsService.calculate_safe_to_spend_amount today txns fb).current_balance = 0 →
      (AnalyticsService.calculate_safe_to_spend_amount today txns fb).status = "warning") ∧
    ((AnalyticsService.calculate_safe_to_spend_amount today txns fb).current_balance < 0 →
      (AnalyticsService.calculate_safe_to_spend_amount today txns fb).status = "negative" ∧
      (AnalyticsService.calculate_safe_to_spend_amount today txns fb).recommendation =
        "ðŸ“‰ Balance is â‚¹" ++
          formatF0 |(AnalyticsService.calculate_safe_to_spend_amount today txns fb).current_balance| ++
          " in deficit. Add income to recover." ∧
      List.IsInfix
        (formatF0 |(AnalyticsService.calculate_safe_to_spend_amount today txns fb).current_balance|).data
        (AnalyticsService.calculate_safe_to_spend_amount today txns fb).recommendation.data) ∧
    (0 < (AnalyticsService.calculate_safe_to_spend_amount today txns fb).current_balance →
      (AnalyticsService.calculate_safe_to_spend_amount today txns fb).safe_to_spend =
        max 0 ((AnalyticsService.calculate_safe_to_spend_amount today txns fb).current_balance -
          fb.total_frozen -
          (AnalyticsService.calculate_safe_to_spend_amount today txns fb).buffer_amount)) := by
  simp only [AnalyticsService.calculate_safe_to_spend_amount]
  refine ⟨?_, ?_, ?_, ?_⟩
  · intro hle
    rw [if_pos hle]
  · intro hne hzero
    have hlen : ¬((txns.length == 0) = true) := by
      cases txns with
      | nil => exact absurd rfl hne
      | cons a l => simp
    rw [if_neg hlen, if_neg (by rw [hzero]; exact lt_irrefl 0), if_pos hzero]
  · intro hneg
    have hne : txns ≠ [] := by
      intro hnil
      rw [hnil] at hneg
      exact absurd hneg (by norm_num [AnalyticsService.liquid_balance])
    have hlen : ¬((txns.length == 0) = true) := by
      cases txns with
      | nil => exact absurd rfl hne
      | cons a l => simp
    rw [if_neg hlen, if_pos hneg, if_neg hlen, if_pos hneg]
    refine ⟨rfl, rfl, ?_⟩
    exact ⟨("ðŸ“‰ Balance is â‚¹").data, (" in deficit. Add income to recover.").data, by simp⟩
  · intro hpos
    rw [if_neg (not_le.mpr hpos)]

/-- A savings-account deficit transaction (−500) for the C1 witness. -/
def negTxn : Transaction := { cashTxn with amount := -500 }

/-- An income transaction (+500) for the C1 witness. -/
def posTxn : Transaction := { cashTxn with id := 2, amount := 500, category := "Income" }

/-- Witness for C1 (amended): with one savings transaction of −500 the balance
is −500, safe-to-spend is 0, the status is "negative" and the recommendation
embeds "500"; with +500 and −500 the balance is 0 and the status is
"warning"; with one +500 transaction the positive-balance formula holds. -/
theorem safe_to_spend_boundaries_witness :
    (AnalyticsService.calculate_safe_to_spend_amount ⟨2025, 6, 10⟩ [negTxn] ⟨0, 0, 0, 0, 0⟩).safe_to_spend
        = 0 ∧
    (AnalyticsService.calculate_safe_to_spend_amount ⟨2025, 6, 10⟩ [negTxn] ⟨0, 0, 0, 0, 0⟩).status
        = "negative" ∧
    List.IsInfix (formatF0 500).data
      (AnalyticsService.calculate_safe_to_spend_amount ⟨2025, 6, 10⟩ [negTxn] ⟨0, 0, 0, 0, 0⟩).recommendation.data ∧
    (AnalyticsService.calculate_safe_to_spend_amount ⟨2025, 6, 10⟩ [posTxn, negTxn] ⟨0, 0, 0, 0, 0⟩).status
        = "warning" ∧
    (AnalyticsService.calculate_safe_to_spend_amount ⟨2025, 6, 10⟩ [posTxn] ⟨0, 0, 0, 0, 0⟩).safe_to_spend
        = max 0 ((AnalyticsService.calculate_safe_to_spend_amount ⟨2025, 6, 10⟩ [posTxn] ⟨0, 0, 0, 0, 0⟩).current_balance
          - (0 : ℚ) -
          (AnalyticsService.calculate_safe_to_spend_amount ⟨2025, 6, 10⟩ [posTxn] ⟨0, 0, 0, 0, 0⟩).buffer_amount) := by
  have hbneg : (AnalyticsService.calculate_safe_to_spend_amount ⟨2025, 6, 10⟩ [negTxn]
      ⟨0, 0, 0, 0, 0⟩).current_balance = -500 := by
    simp only [AnalyticsService.calculate_safe_to_spend_amount]
    show AnalyticsService.liquid_balance [negTxn] = -500
    norm_num [AnalyticsService.liquid_balance, List.filter, negTxn, cashTxn]
  have hbzero : (AnalyticsService.calculate_safe_to_spend_amount ⟨2025, 6, 10⟩ [posTxn, negTxn]
      ⟨0, 0, 0, 0, 0⟩).current_balance = 0 := by
    simp only [AnalyticsService.calculate_safe_to_spend_amount]
    show AnalyticsService.liquid_balance [posTxn, negTxn] = 0
    norm_num [AnalyticsService.liquid_balance, List.filter, negTxn, posTxn, cashTxn]
  have hbpos : (AnalyticsService.calculate_safe_to_spend_amount ⟨2025, 6, 10⟩ [posTxn]
      ⟨0, 0, 0, 0, 0⟩).current_balance = 500 := by
    simp only [AnalyticsService.calculate_safe_to_spend_amount]
    show AnalyticsService.liquid_balance [posTxn] = 500
    norm_num [AnalyticsService.liquid_balance, List.filter, posTxn, cashTxn]
  have hneg := safe_to_spend_boundaries ⟨2025, 6, 10⟩ [negTxn] ⟨0, 0, 0, 0, 0⟩
  have hzero := safe_to_spend_boundaries ⟨2025, 6, 10⟩ [posTxn, negTxn] ⟨0, 0, 0, 0, 0⟩
  have hpos := safe_to_spend_boundaries ⟨2025, 6, 10⟩ [posTxn] ⟨0, 0, 0, 0, 0⟩
  have hneg3 := hneg.2.2.1 (by rw [hbneg]; norm_num)
  refine ⟨hneg.1 (by rw [hbneg]; norm_num), hneg3.1, ?_, hzero.2.1 (by simp) hbzero, ?_⟩
  · have := hneg3.2.2
    rw [hbneg] at this
    simpa using this
  · exact hpos.2.2.2 (by rw [hbpos]; norm_num)

/-! ## `app/features/sanitizer/service.py` (vercelDeployable variant)

The sanitizer is a chain of `re.sub` calls. The embedding implements the
fragment of Python `re` the sanitizer's eight patterns use — character
classes, literals (with the `(?i)` flag), concatenation, alternation,
greedy/lazy counted repetition, one capturing group and `\b` — as a
backtracking matcher with Python's preference order (leftmost match;
alternation prefers the left branch; greedy repetition prefers longer, lazy
prefers shorter), and `re.sub`'s left-to-right non-overlapping replacement. -/

namespace Sanitizer

/-- Python `re` word characters, ASCII range (`[A-Za-z0-9_]`). -/
def isWordChar (c : Char) : Bool :=
  c.isAlphanum || c == '_'

/-- Python `\s` (ASCII range): space, tab, newline, carriage return,
vertical tab, form feed. -/
def isSpaceChar (c : Char) : Bool :=
  c == ' ' || c == '\t' || c == '\n' || c == '\r' || c == '\x0b' || c == '\x0c'

/-- Abstract syntax of the regex fragment used by the sanitizer.
`rep lzy lo hi r` is `r{lo,hi}` (`hi = none` when unbounded), lazy when
`lzy` is true; `grp` is the (single) capturing group; `wordB` is `\b`. -/
inductive Re where
  | cls : (Char → Bool) → Re
  | lit : Bool → List Char → Re
  | seq : Re → Re → Re
  | alt : Re → Re → Re
  | rep : Bool → Nat → Option Nat → Re → Re
  | grp : Re → Re
  | wordB : Re

/-- Character of the subject at index `i`. -/
def charAt (inp : List Char) (i : Nat) : Option Char :=
  inp.get? i

/-- Literal match at a position (`ci` = case-insensitive, the `(?i)` flag,
ASCII case folding as Python does for these patterns). -/
def litMatches (ci : Bool) (inp : List Char) : Nat → List Char → Bool
  | _, [] => true
  | pos, c :: cs =>
    match charAt inp pos with
    | none => false
    | some d =>
      (if ci then c.toLower == d.toLower else c == d) && litMatches ci inp (pos + 1) cs

mutual

/-- Backtracking matcher in continuation-passing style. `inp` is the whole
subject (needed by `\b`), `pos` the current position, `cap` the group-1 span
captured so far, `k` the continuation receiving the position after the
current node and the capture. The fuel only bounds recursion depth; every
repetition body in the sanitizer's patterns consumes at least one character,
so the fuel chosen by `matchAt` is never exhausted on them. -/
def mat (inp : List Char) : Nat → Re → Nat → Option (Nat × Nat) →
    (Nat → Option (Nat × Nat) → Option (Nat × Option (Nat × Nat))) →
    Option (Nat × Option (Nat × Nat))
  | 0, _, _, _, _ => none
  | fuel + 1, re, pos, cap, k =>
    match re with
    | .cls p =>
      match charAt inp pos with
      | none => none
      | some c => if p c then k (pos + 1) cap else none
    | .lit ci s => if litMatches ci inp pos s then k (pos + s.length) cap else none
    | .seq a b => mat inp fuel a pos cap (fun p c => mat inp fuel b p c k)
    | .alt a b =>
      match mat inp fuel a pos cap k with
      | some r => some r
      | none => mat inp fuel b pos cap k
    | .grp r => mat inp fuel r pos cap (fun p _ => k p (some (pos, p)))
    | .wordB =>
      let prevW : Bool :=
        match pos with
        | 0 => false
        | i + 1 => ((charAt inp i).map isWordChar).getD false
      let curW : Bool := ((charAt inp pos).map isWordChar).getD false
      if prevW != curW then k pos cap else none
    | .rep lzy lo hi r => repMat inp fuel lzy lo hi r 0 pos cap k

/-- Counted repetition `r{lo,hi}` with `n` iterations already matched:
greedy tries one more iteration first and stopping second; lazy tries
stopping first (once `lo` is reached) and extending second. -/
def repMat (inp : List Char) : Nat → Bool → Nat → Option Nat → Re → Nat → Nat →
    Option (Nat × Nat) →
    (Nat → Option (Nat × Nat) → Option (Nat × Option (Nat × Nat))) →
    Option (Nat × Option (Nat × Nat))
  | 0, _, _, _, _, _, _, _, _ => none
  | fuel + 1, lzy, lo, hi, r, n, pos, cap, k =>
    let canMore : Bool :=
      match hi with
      | none => true
      | some h => n < h
    if lzy then
      match (if lo ≤ n then k pos cap else none) with
      | some res => some res
      | none =>
        if canMore then
          mat inp fuel r pos cap (fun p c => repMat inp fuel lzy lo hi r (n + 1) p c k)
        else none
    else
      match (if canMore then
          mat inp fuel r pos cap (fun p c => repMat inp fuel lzy lo hi r (n + 1) p c k)
        else none) with
      | some res => some res
      | none => if lo ≤ n then k pos cap else none

end

/-- Try to match `re` at position `pos` of the subject (Python's anchored
attempt during a `sub` scan): the match end and the group-1 span. -/
def matchAt (re : Re) (inp : List Char) (pos : Nat) : Option (Nat × Option (Nat × Nat)) :=
  mat inp ((inp.length + 10) * 100) re pos none (fun p c => some (p, c))

/-- Python `pattern.sub(repl, text)` scan: at each position try a match;
on a (necessarily non-empty, for these patterns) match emit the replacement
and resume after the match, otherwise copy one character and advance. -/
def subScan (re : Re) (repl : List Char → Option (Nat × Nat) → List Char)
    (inp : List Char) : Nat → Nat → List Char
  | 0, _ => []
  | fuel + 1, pos =>
    if pos < inp.length then
      match matchAt re inp pos with
      | some (e, cap) =>
        if pos < e then repl inp cap ++ subScan re repl inp fuel e
        else (charAt inp pos).toList ++ subScan re repl inp fuel (pos + 1)
      | none => (charAt inp pos).toList ++ subScan re repl inp fuel (pos + 1)
    else []

/-- `pattern.sub(repl, text)`. -/
def sub (re : Re) (repl : List Char → Option (Nat × Nat) → List Char)
    (inp : List Char) : List Char :=
  subScan re repl inp (inp.length + 1) 0

/-- `[a-zA-Z0-9.\-_]` (the UPI local class). -/
def upiChar (c : Char) : Bool :=
  c.isAlpha || c.isDigit || c == '.' || c == '-' || c == '_'

/-- `'UPI': [a-zA-Z0-9.\-_]{2,}@[a-zA-Z]{2,}`. -/
def upiRe : Re :=
  .seq (.rep false 2 none (.cls upiChar))
    (.seq (.cls (fun c => c == '@')) (.rep false 2 none (.cls Char.isAlpha)))

/-- `[A-Za-z0-9._%+-]` (the EMAIL local-part class). -/
def emailLocalChar (c : Char) : Bool :=
  c.isAlpha || c.isDigit || c == '.' || c == '_' || c == '%' || c == '+' || c == '-'

/-- `[A-Za-z0-9.-]` (the EMAIL domain class). -/
def emailDomainChar (c : Char) : Bool :=
  c.isAlpha || c.isDigit || c == '.' || c == '-'

/-- `[A-Z|a-z]` — the source's TLD class literally includes `'|'`. -/
def emailTldChar (c : Char) : Bool :=
  c.isAlpha || c == '|'

/-- `'EMAIL': \b[A-Za-z0-9._%+-]+@[A-Za-z0-9.-]+\.[A-Z|a-z]{2,}\b`. -/
def emailRe : Re :=
  .seq .wordB
    (.seq (.rep false 1 none (.cls emailLocalChar))
      (.seq (.cls (fun c => c == '@'))
        (.seq (.rep false 1 none (.cls emailDomainChar))
          (.seq (.cls (fun c => c == '.'))
            (.seq (.rep false 2 none (.cls emailTldChar)) .wordB)))))

/-- `'PHONE': (?:\+?91|0)?[6-9]\d{9}`. -/
def phoneRe : Re :=
  .seq (.rep false 0 (some 1)
      (.alt (.seq (.rep false 0 (some 1) (.cls (fun c => c == '+'))) (.lit false ['9', '1']))
        (.lit false ['0'])))
    (.seq (.cls (fun c => decide ('6' ≤ c) && decide (c ≤ '9')))
      (.rep false 9 (some 9) (.cls Char.isDigit)))

/-- `'CARD': (?:\d[ -]*?){12,19}`. -/
def cardRe : Re :=
  .rep false 12 (some 19)
    (.seq (.cls Char.isDigit) (.rep true 0 none (.cls (fun c => c == ' ' || c == '-'))))

/-- `'ACCOUNT': [Xx]+\d{3,6}`. -/
def accountRe : Re :=
  .seq (.rep false 1 none (.cls (fun c => c == 'X' || c == 'x')))
    (.rep false 3 (some 6) (.cls Char.isDigit))

/-- `'PAN': [A-Z]{5}[0-9]{4}[A-Z]{1}`. -/
def panRe : Re :=
  .seq (.rep false 5 (some 5) (.cls Char.isUpper))
    (.seq (.rep false 4 (some 4) (.cls Char.isDigit)) (.rep false 1 (some 1) (.cls Char.isUpper)))

/-- `'AADHAAR': \d{4}\s\d{4}\s\d{4}`. -/
def aadhaarRe : Re :=
  .seq (.rep false 4 (some 4) (.cls Char.isDigit))
    (.seq (.cls isSpaceChar)
      (.seq (.rep false 4 (some 4) (.cls Char.isDigit))
        (.seq (.cls isSpaceChar) (.rep false 4 (some 4) (.cls Char.isDigit)))))

/-- `(?i)(Dear|Hello|Hi)\s+[A-Za-z\s]+,` — the greeting pattern. -/
def greetRe : Re :=
  .seq (.grp (.alt (.lit true ['D', 'e', 'a', 'r'])
      (.alt (.lit true ['H', 'e', 'l', 'l', 'o']) (.lit true ['H', 'i']))))
    (.seq (.rep false 1 none (.cls isSpaceChar))
      (.seq (.rep false 1 none (.cls (fun c => c.isAlpha || isSpaceChar c)))
        (.cls (fun c => c == ','))))

/-- The greeting replacement `r"\1 Customer,"`: group 1's original text
followed by " Customer,". -/
def greetRepl (inp : List Char) (cap : Option (Nat × Nat)) : List Char :=
  (match cap with
    | some (s, e) => (inp.drop s).take (e - s)
    | none => []) ++ (" Customer,").data

/-- The `f"<{label}>"` replacement used for every pattern substitution. -/
def labelRepl (label : String) : List Char → Option (Nat × Nat) → List Char :=
  fun _ _ => ("<" ++ label ++ ">").data

/-- `SanitizerService.sanitize(text)`: empty text is returned as-is
(`if not text`); otherwise the greeting rewrite, then the pattern
substitutions in the patterns-dict insertion order — UPI, EMAIL, PHONE, CARD,
ACCOUNT, PAN, AADHAAR — with the OTP entry (generic `\b\d{4,8}\b`) defined
in the dict but skipped by the loop. -/
def sanitize (text : String) : String :=
  if text = "" then text
  else
    let t := sub greetRe greetRepl text.data
    let t := sub upiRe (labelRepl "UPI") t
    let t := sub emailRe (labelRepl "EMAIL") t
    let t := sub phoneRe (labelRepl "PHONE") t
    let t := sub cardRe (labelRepl "CARD") t
    let t := sub accountRe (labelRepl "ACCOUNT") t
    let t := sub panRe (labelRepl "PAN") t
    let t := sub aadhaarRe (labelRepl "AADHAAR") t
    String.mk t

end Sanitizer

/-! ## Claim C9 -/

set_option maxRecDepth 100000 in
/-- C9 counterexample: `sanitize` is not idempotent. On
"a@cd.ef9876543210" the first pass replaces only the phone number (the EMAIL
pattern fails because the trailing `\b` sits between two word characters,
`f` and `9`); the second pass then matches "a@cd.ef" against the EMAIL
pattern (the `<` of the inserted label now forms a word boundary after `f`)
and redacts further, so applying `sanitize` twice differs from applying it
once. -/
theorem sanitize_not_idempotent_counterexample :
    Sanitizer.sanitize "a@cd.ef9876543210" = "a@cd.ef<PHONE>" ∧
    Sanitizer.sanitize "a@cd.ef<PHONE>" = "<EMAIL><PHONE>" ∧
    Sanitizer.sanitize (Sanitizer.sanitize "a@cd.ef9876543210") ≠
      Sanitizer.sanitize "a@cd.ef9876543210" := by
  refine ⟨by decide, by decide, ?_⟩
  intro h
  rw [show Sanitizer.sanitize "a@cd.ef9876543210" = "a@cd.ef<PHONE>" from by decide] at h
  rw [show Sanitizer.sanitize "a@cd.ef<PHONE>" = "<EMAIL><PHONE>" from by decide] at h
  exact absurd h (by decide)

/-- C9 (amended): `sanitize` is idempotent on already-sanitized text in the
sense of text the sanitizer leaves unchanged — re-applying it to such a fixed
point produces no further changes — but it is not idempotent on every input:
a PHONE substitution can expose a word boundary that lets the EMAIL pattern
match on a second pass (see the counterexample). -/
theorem sanitize_idempotent_on_sanitized (s : String)
    (h : Sanitizer.sanitize s = s) :
    Sanitizer.sanitize (Sanitizer.sanitize s) = Sanitizer.sanitize s := by
  rw [h]
  exact h

set_option maxRecDepth 100000 in
/-- Witness for C9 (amended): "hello" is left unchanged by `sanitize` (the
case-insensitive greeting literal matches but the pattern requires
whitespace and a comma after it), so a second application changes nothing. -/
theorem sanitize_idempotent_on_sanitized_witness :
    Sanitizer.sanitize "hello" = "hello" ∧
    Sanitizer.sanitize (Sanitizer.sanitize "hello") = Sanitizer.sanitize "hello" :=
  ⟨by decide, sanitize_idempotent_on_sanitized "hello" (by decide)⟩

end Griply
